import Mathlib

/-!
# Verification of the anonymous-submission Telegram bot (`bot.py`)

Shallow embedding of the handlers of `src/bot.py`. External gateway calls
(sending, editing and deleting messages, membership lookups, pacing sleeps,
log lines) are recorded as an `Event` trace; the outcome of each fallible
gateway call is a parameter of the handler that makes it. File I/O is
modelled by a `FileState` map passed to `load_json_data`. Machine-level
details (JSON text, datetimes) that no handler inspects are passed through
as opaque strings.
-/

namespace Bot

/-- Value stored for a user in `users.json`: `{"username": ..., "first_name": ...}`. -/
structure UserInfo where
  username : Option String
  first_name : Option String
deriving DecidableEq, Repr

/-- The user registry mapping `str(user_id)` to the user's info, in insertion
order (a Python dict preserves insertion order and has unique keys). -/
abbrev Users := List (String × UserInfo)

/-- Observable effects a handler emits, in order.  Inline keyboards are
elided except for the callback data of the admin delete button, which is
the only button payload a later handler reads. -/
inductive Event where
  | replyText (s : String)
  | saveUsers (users : Users)
  | getChatMember
  | sendMessage (chat : String) (text : String)
  | sendMessageKb (chat : String) (text : String) (callbackData : String)
  | editMessageText (s : String)
  | answerQuery
  | deleteMessage (chat : String) (messageId : Nat)
  | sleep
  | logInfo (s : String)
  | logWarning (s : String)
  | logError (s : String)
deriving DecidableEq, Repr

/-- Python `str(user_id) in users` on a dict: key membership. -/
def hasKey (users : Users) (k : String) : Bool :=
  users.any (fun p => p.1 == k)

/-- Number of entries under a key (a well-formed dict has at most one). -/
def countKey (users : Users) (k : String) : Nat :=
  (users.filter (fun p => p.1 == k)).length

/-- Conversation-handler return values: the three states of `range(3)` plus
`ConversationHandler.END`. -/
inductive ConvResult where
  | submitting
  | awaitingConfirmation
  | broadcasting
  | endConv
deriving DecidableEq, Repr

/-- State of the backing file seen by `load_json_data`: missing; decodable
text that is not valid JSON, or an I/O failure (both caught by the
`except (json.JSONDecodeError, IOError)` clause); raw bytes that are not
decodable text at all (`json.load` then raises `UnicodeDecodeError`, which
that clause does not catch); or content parsing to a mapping. -/
inductive FileState where
  | absent
  | malformed
  | undecodable
  | good (data : Users)
deriving DecidableEq, Repr

/-- Model of `load_json_data(filepath)`: `{}` when the file does not exist;
on `JSONDecodeError`/`IOError` logs an error and returns `{}`.  Content
whose bytes cannot be decoded as text makes `json.load` raise
`UnicodeDecodeError`, a subclass of neither caught exception, so it
propagates to the caller — modelled as `Except.error`. -/
def load_json_data (fs : String → FileState) (filepath : String) :
    Except Unit (List Event × Users) :=
  match fs filepath with
  | .absent => .ok ([], [])
  | .malformed => .ok ([Event.logError ("Could not read or parse " ++ filepath)], [])
  | .undecodable => .error ()
  | .good d => .ok ([], d)

/-- Result of the gateway's `get_chat_member` call: the member's status
string, or a raised error (network failure, unresolvable user/channel). -/
inductive ChatMemberResult where
  | ok (status : String)
  | err
deriving DecidableEq, Repr

/-- The statuses accepted by `start`'s membership check. -/
def memberStatuses : List String := ["member", "administrator", "creator"]

/-- Python `CHANNEL_ID.lstrip('@')`. -/
def lstripAt (s : String) : String :=
  String.mk (s.toList.dropWhile (fun c => c = '@'))

def joinPromptText (channelId : String) : String :=
  "It looks like you haven't joined our channel yet. Please join us at https://t.me/"
    ++ lstripAt channelId ++ " and then type /start to try again."

structure StartOutput where
  users : Users
  events : List Event
  result : ConvResult
deriving DecidableEq, Repr

/-- Model of `start(update, context)`: saves the user id into `users.json` if new,
greets, then gates on channel membership.  `users` is the registry read from
disk at entry; `lookup` is the outcome of the `get_chat_member` call (the
call is recorded as `Event.getChatMember` whether or not it raises). -/
def start (channelId : String) (users : Users) (user_id : Nat)
    (username first_name : Option String) (lookup : ChatMemberResult) :
    StartOutput :=
  let key := toString user_id
  let users1 :=
    if hasKey users key then users
    else users ++ [(key, ⟨username, first_name⟩)]
  let ev1 : List Event :=
    if hasKey users key then []
    else [Event.saveUsers (users ++ [(key, ⟨username, first_name⟩)]),
          Event.logInfo ("New user saved: " ++ key)]
  let ev2 := ev1 ++
    [Event.replyText "Welcome! Let me check if you're a member of our channel first...",
     Event.getChatMember]
  match lookup with
  | .ok status =>
    if memberStatuses.contains status then
      { users := users1
        events := ev2 ++
          [Event.logInfo ("User " ++ key ++ " is a member."),
           Event.replyText "Great, you're a member! Please send me the message you want to post.\n\nTo cancel at any time, type /cancel."]
        result := .submitting }
    else
      { users := users1
        events := ev2 ++
          [Event.logInfo ("User " ++ key ++ " is not a member of " ++ channelId ++ "."),
           Event.replyText (joinPromptText channelId)]
        result := .endConv }
  | .err =>
      { users := users1
        events := ev2 ++
          [Event.logInfo ("User " ++ key ++ " is not a member of " ++ channelId ++ "."),
           Event.replyText (joinPromptText channelId)]
        result := .endConv }

structure MessageOutput where
  ctx : Option String
  events : List Event
  result : ConvResult
deriving DecidableEq, Repr

/-- Model of `handle_message`: stores the text in `context.user_data["message_to_send"]`
(overwriting any held value) and asks for confirmation. -/
def handle_message (ctx : Option String) (message_text : String) :
    MessageOutput :=
  { ctx := some message_text
    events := [Event.replyText ("Your message:\n---\n" ++ message_text ++
      "\n---\n\nAre you sure you want to post this anonymously?")]
    result := .awaitingConfirmation }

/-- Model of `cancel`: replies and ends the conversation; the body never touches
`context.user_data`, so the held context passes through unchanged. -/
def cancel (ctx : Option String) : MessageOutput :=
  { ctx := ctx
    events := [Event.replyText "Operation cancelled."]
    result := .endConv }

/-- Python truthiness test `if not message_text:` on an `Optional[str]`. -/
def falsy (o : Option String) : Bool :=
  match o with
  | none => true
  | some s => s == ""

structure ConfirmOutput where
  events : List Event
  result : ConvResult
deriving DecidableEq, Repr

/-- Model of `handle_confirmation`: on `confirm_post_yes` posts the held text to the
channel, confirms to the user, and notifies the admin with a delete button;
on `confirm_post_no` cancels.  `postResult` is the outcome of the
`send_message` to the channel (`.ok mid` giving the posted message id); the
user-confirmation edit and the admin notification are assumed to succeed
when reached.  `timestamp` stands for the formatted GMT+8 time. -/
def handle_confirmation (channelId adminChatId : String) (data : String)
    (ctx : Option String) (user_id : Nat) (username : Option String)
    (timestamp : String) (postResult : Except Unit Nat) : ConfirmOutput :=
  let ev0 := [Event.answerQuery]
  if data == "confirm_post_yes" then
    if falsy ctx then
      { events := ev0 ++ [Event.editMessageText "Sorry, an error occurred. Please /start again."]
        result := .endConv }
    else
      let message_text := ctx.getD ""
      match postResult with
      | .ok mid =>
        let user_info := "ID: `" ++ toString user_id ++ "`" ++
          (match username with
           | some u => ", Username: @" ++ u
           | none => "")
        { events := ev0 ++
            [Event.sendMessage channelId message_text,
             Event.logInfo ("Posted message " ++ toString mid ++ " to channel " ++ channelId),
             Event.editMessageText "✅ Your message has been posted anonymously to the channel!",
             Event.sendMessageKb adminChatId
               ("*New Post*\n\n👤 *User:* " ++ user_info ++
                "\n⏰ *Time:* " ++ timestamp ++ " (GMT+8)\n\n*Message Content:*\n---\n" ++
                message_text ++ "\n---")
               ("delete:" ++ toString mid)]
          result := .endConv }
      | .error _ =>
        { events := ev0 ++
            [Event.sendMessage channelId message_text,
             Event.logError ("Failed to post message for user " ++ toString user_id),
             Event.editMessageText "Sorry, an error occurred and I couldn't post your message. Please try again later."]
          result := .endConv }
  else if data == "confirm_post_no" then
    { events := ev0 ++ [Event.editMessageText "Submission cancelled. Use /start to send a different message."]
      result := .endConv }
  else
    { events := ev0, result := .endConv }

/-- Python `data.split(":", 1)` on the character list: text before the first
`':'`, and the remainder after it when a `':'` occurs. -/
def splitFirstColon : List Char → List Char × Option (List Char)
  | [] => ([], none)
  | c :: rest =>
    if c = ':' then ([], some rest)
    else
      let (a, b) := splitFirstColon rest
      (c :: a, b)

/-- Python `int(s)` restricted to the decimal digit strings actually produced
by the bot's callback data; any other input raises (`none`). -/
def parseNat : List Char → Option Nat
  | [] => none
  | cs => cs.foldl
      (fun acc c =>
        match acc with
        | none => none
        | some n => if c.isDigit then some (n * 10 + (c.toNat - 48)) else none)
      (some 0)

structure AdminActionOutput where
  channel : List Nat
  events : List Event
deriving DecidableEq, Repr

/-- Model of `handle_admin_action`: decodes `"delete:<message_id>"` and deletes that
message from the channel.  `channel` is the set of message ids currently
present in the target channel; `delete_message` raises `BadRequest` when the
id is not there.  The handler is only registered for callback data matching
`"^delete:.*"`, so `data` always contains a `':'`. -/
def handle_admin_action (channelId : String) (channel : List Nat)
    (from_user_id : Nat) (data : String) : AdminActionOutput :=
  let (actionCs, rest) := splitFirstColon data.toList
  let action := String.mk actionCs
  let message_id := String.mk (rest.getD [])
  let ev0 := [Event.answerQuery]
  if action == "delete" then
    match parseNat message_id.toList with
    | some mid =>
      if channel.contains mid then
        { channel := channel.erase mid
          events := ev0 ++
            [Event.deleteMessage channelId mid,
             Event.editMessageText "🗑️ Message has been deleted from the channel.",
             Event.logInfo ("Admin " ++ toString from_user_id ++ " deleted message " ++
               message_id ++ " from channel " ++ channelId ++ ".")] }
      else
        { channel := channel
          events := ev0 ++
            [Event.deleteMessage channelId mid,
             Event.editMessageText "Could not delete message. It may have been deleted already.",
             Event.logWarning ("Admin " ++ toString from_user_id ++ " failed to delete message " ++
               message_id ++ " (already deleted?).")] }
    | none =>
      { channel := channel
        events := ev0 ++
          [Event.logError ("Error deleting message " ++ message_id),
           Event.editMessageText "An error occurred while trying to delete the message."] }
  else
    { channel := channel, events := ev0 }

structure BroadcastStartOutput where
  events : List Event
  result : ConvResult
deriving DecidableEq, Repr

/-- Python's `needle in haystack` on strings: contiguous-substring test. -/
def pySubstr (needle : List Char) : List Char → Bool
  | [] => needle.isEmpty
  | c :: rest => needle.isPrefixOf (c :: rest) || pySubstr needle rest

/-- Model of `broadcast_start`: admin gate and entry into the broadcast conversation.
Python's `str(update.effective_user.id) not in ADMIN_CHAT_ID` is a substring
test on the `ADMIN_CHAT_ID` string, embedded as `pySubstr`. -/
def broadcast_start (adminChatId : String) (user_id : Nat) :
    BroadcastStartOutput :=
  if ¬ (pySubstr (toString user_id).toList adminChatId.toList) then
    { events := [Event.replyText "This command is for admins only."]
      result := .endConv }
  else
    { events := [Event.replyText "Please send the broadcast message. Use /cancel to stop."]
      result := .broadcasting }

/-- Outcome of one `send_message` to a broadcast recipient: delivered,
`Forbidden` (the user blocked the bot), or any other exception. -/
inductive SendOutcome where
  | ok
  | forbidden
  | otherError
deriving DecidableEq, Repr

/-- The `for user_id in users:` loop of `broadcast_message`, threading the
two counters.  A successful send is followed by `asyncio.sleep(0.1)`; the
two `except` arms log and count the failure with no sleep and no retry. -/
def broadcastLoop (text : String) (outcome : String → SendOutcome) :
    List String → Nat → Nat → List Event × Nat × Nat
  | [], s, f => ([], s, f)
  | uid :: rest, s, f =>
    let (ev, s', f') :=
      match outcome uid with
      | .ok => ([Event.sendMessage uid text, Event.sleep], s + 1, f)
      | .forbidden =>
          ([Event.sendMessage uid text,
            Event.logWarning ("User " ++ uid ++ " has blocked the bot. Skipping.")], s, f + 1)
      | .otherError =>
          ([Event.sendMessage uid text,
            Event.logError ("Failed to send broadcast to " ++ uid)], s, f + 1)
    let (evr, s'', f'') := broadcastLoop text outcome rest s' f'
    (ev ++ evr, s'', f'')

structure BroadcastOutput where
  events : List Event
  success_count : Nat
  fail_count : Nat
  result : ConvResult
deriving DecidableEq, Repr

/-- Model of `broadcast_message`: announces the broadcast, sends `broadcast_text` to
every key of the registry in order, and reports the tally.  `outcome` gives
the result of the gateway send for each recipient. -/
def broadcast_message (broadcast_text : String) (users : Users)
    (outcome : String → SendOutcome) : BroadcastOutput :=
  let keys := users.map Prod.fst
  let (ev, s, f) := broadcastLoop broadcast_text outcome keys 0 0
  { events :=
      Event.replyText ("Starting broadcast to " ++ toString users.length ++
        " users. This may take a while...") ::
      ev ++
      [Event.replyText ("Broadcast complete.\n\nSuccessfully sent: " ++ toString s ++
        "\nFailed or blocked: " ++ toString f)]
    success_count := s
    fail_count := f
    result := .endConv }

/-! ## Helper predicates and lemmas -/

def isSendEvent : Event → Bool
  | .sendMessage _ _ => true
  | _ => false

def isSleepEvent : Event → Bool
  | .sleep => true
  | _ => false

/-- The send/sleep subtrace of an event list — what pacing is about. -/
def pacingTrace (evs : List Event) : List Event :=
  evs.filter (fun e => isSendEvent e || isSleepEvent e)

/-- No two consecutive entries of the list are both sends. -/
def noAdjacentSends : List Event → Bool
  | e1 :: e2 :: rest => (!(isSendEvent e1 && isSendEvent e2)) && noAdjacentSends (e2 :: rest)
  | _ => true

/-- The claim "a pacing delay is inserted between every pair of consecutive
sends": in the send/sleep subtrace, no send directly follows a send. -/
def pacedBetweenSends (evs : List Event) : Bool :=
  noAdjacentSends (pacingTrace evs)

@[simp] lemma isSendEvent_sendMessage (c t : String) :
    isSendEvent (Event.sendMessage c t) = true := rfl

@[simp] lemma isSendEvent_sleep : isSendEvent Event.sleep = false := rfl

@[simp] lemma isSendEvent_logWarning (s : String) :
    isSendEvent (Event.logWarning s) = false := rfl

@[simp] lemma isSendEvent_logError (s : String) :
    isSendEvent (Event.logError s) = false := rfl

@[simp] lemma isSendEvent_replyText (s : String) :
    isSendEvent (Event.replyText s) = false := rfl

@[simp] lemma isSleepEvent_sleep : isSleepEvent Event.sleep = true := rfl

@[simp] lemma isSleepEvent_sendMessage (c t : String) :
    isSleepEvent (Event.sendMessage c t) = false := rfl

@[simp] lemma isSleepEvent_logWarning (s : String) :
    isSleepEvent (Event.logWarning s) = false := rfl

@[simp] lemma isSleepEvent_logError (s : String) :
    isSleepEvent (Event.logError s) = false := rfl

@[simp] lemma isSleepEvent_replyText (s : String) :
    isSleepEvent (Event.replyText s) = false := rfl

/-- Events of one iteration of the broadcast loop for recipient `uid`. -/
def stepEvents (text : String) (outcome : String → SendOutcome) (uid : String) :
    List Event :=
  match outcome uid with
  | .ok => [Event.sendMessage uid text, Event.sleep]
  | .forbidden =>
      [Event.sendMessage uid text,
       Event.logWarning ("User " ++ uid ++ " has blocked the bot. Skipping.")]
  | .otherError =>
      [Event.sendMessage uid text,
       Event.logError ("Failed to send broadcast to " ++ uid)]

def okCount (outcome : String → SendOutcome) (keys : List String) : Nat :=
  (keys.filter (fun u => outcome u == SendOutcome.ok)).length

def failCount (outcome : String → SendOutcome) (keys : List String) : Nat :=
  (keys.filter (fun u => !(outcome u == SendOutcome.ok))).length

lemma broadcastLoop_eq (text : String) (outcome : String → SendOutcome) :
    ∀ (keys : List String) (s f : Nat),
      broadcastLoop text outcome keys s f =
        (keys.flatMap (stepEvents text outcome),
         s + okCount outcome keys, f + failCount outcome keys)
  | [], s, f => by simp [broadcastLoop, okCount, failCount]
  | uid :: rest, s, f => by
      cases h : outcome uid with
      | ok =>
          simp [broadcastLoop, stepEvents, okCount, failCount, h,
            broadcastLoop_eq text outcome rest (s + 1) f, List.filter_cons]
          omega
      | forbidden =>
          simp [broadcastLoop, stepEvents, okCount, failCount, h,
            broadcastLoop_eq text outcome rest s (f + 1), List.filter_cons]
          omega
      | otherError =>
          simp [broadcastLoop, stepEvents, okCount, failCount, h,
            broadcastLoop_eq text outcome rest s (f + 1), List.filter_cons]
          omega

lemma okCount_add_failCount (outcome : String → SendOutcome) (keys : List String) :
    okCount outcome keys + failCount outcome keys = keys.length := by
  unfold okCount failCount
  exact (List.length_eq_length_filter_add (fun u => outcome u == SendOutcome.ok)).symm

lemma filter_isSend_stepEvents (text : String) (outcome : String → SendOutcome) :
    ∀ keys : List String,
      (keys.flatMap (stepEvents text outcome)).filter isSendEvent =
        keys.map (fun u => Event.sendMessage u text)
  | [] => by simp
  | uid :: rest => by
      cases h : outcome uid <;>
        simp [stepEvents, h, filter_isSend_stepEvents text outcome rest]

lemma pacingTrace_stepEvents (text : String) (outcome : String → SendOutcome) :
    ∀ keys : List String,
      pacingTrace (keys.flatMap (stepEvents text outcome)) =
        keys.flatMap (fun u =>
          Event.sendMessage u text ::
            (if outcome u == SendOutcome.ok then [Event.sleep] else []))
  | [] => by simp [pacingTrace]
  | uid :: rest => by
      have ih := pacingTrace_stepEvents text outcome rest
      simp only [pacingTrace] at ih ⊢
      cases h : outcome uid <;>
        simp [stepEvents, h, ih]

lemma send_mem_broadcastLoop (text : String) (outcome : String → SendOutcome)
    (keys : List String) (uid : String) (h : uid ∈ keys) :
    Event.sendMessage uid text ∈ (broadcastLoop text outcome keys 0 0).1 := by
  rw [broadcastLoop_eq]
  simp only [List.mem_flatMap]
  exact ⟨uid, h, by cases ho : outcome uid <;> simp [stepEvents, ho]⟩

lemma hasKey_iff_countKey_pos (users : Users) (k : String) :
    hasKey users k = true ↔ 0 < countKey users k := by
  simp [hasKey, countKey, List.any_eq_true, List.length_pos_iff_ne_nil,
    List.filter_eq_nil_iff]

lemma countKey_append (u v : Users) (k : String) :
    countKey (u ++ v) k = countKey u k + countKey v k := by
  simp [countKey, List.filter_append]

/-- Any gateway message emission: a channel/user send or a keyboard send. -/
def isGatewaySend : Event → Bool
  | .sendMessage _ _ => true
  | .sendMessageKb _ _ _ => true
  | _ => false

lemma broadcast_message_eq (text : String) (users : Users)
    (outcome : String → SendOutcome) :
    broadcast_message text users outcome =
      { events :=
          Event.replyText ("Starting broadcast to " ++ toString users.length ++
            " users. This may take a while...") ::
          (users.map Prod.fst).flatMap (stepEvents text outcome) ++
          [Event.replyText ("Broadcast complete.\n\nSuccessfully sent: " ++
            toString (okCount outcome (users.map Prod.fst)) ++
            "\nFailed or blocked: " ++
            toString (failCount outcome (users.map Prod.fst)))]
        success_count := okCount outcome (users.map Prod.fst)
        fail_count := failCount outcome (users.map Prod.fst)
        result := .endConv } := by
  simp [broadcast_message, broadcastLoop_eq]

lemma start_users_eq (channelId : String) (users : Users) (user_id : Nat)
    (username first_name : Option String) (lookup : ChatMemberResult) :
    (start channelId users user_id username first_name lookup).users =
      (if hasKey users (toString user_id) then users
       else users ++ [(toString user_id, ⟨username, first_name⟩)]) := by
  cases lookup with
  | ok s => simp only [start]; split <;> rfl
  | err => rfl

/-! ## Claim theorems -/

/-- Claim C2 (refuted — code bug): the spec says only the admin caller
advances to Broadcasting and every other caller gets the generic denial.
But `str(update.effective_user.id) not in ADMIN_CHAT_ID` is a substring
test: with `ADMIN_CHAT_ID = "12345"`, the non-admin caller with user id 234
("234" is a substring of "12345", yet 234 is not the admin) is admitted
into the Broadcasting state.  The genuine admin 12345 is also admitted and
a caller such as 678 is denied, so the check passes only by accident of the
digits. -/
theorem broadcast_start_admits_substring_id :
    toString (234 : Nat) ≠ "12345" ∧
    broadcast_start "12345" 234 =
      { events := [Event.replyText "Please send the broadcast message. Use /cancel to stop."]
        result := ConvResult.broadcasting } ∧
    broadcast_start "12345" 12345 =
      { events := [Event.replyText "Please send the broadcast message. Use /cancel to stop."]
        result := ConvResult.broadcasting } ∧
    broadcast_start "12345" 678 =
      { events := [Event.replyText "This command is for admins only."]
        result := ConvResult.endConv } := by
  refine ⟨by decide, by decide, by decide, by decide⟩

/-- Claim C6 (refuted): cancelling is claimed to clear the held composition
text from the conversation context, but `cancel` only replies and ends the
conversation; the held text `"stale"` is still in the context afterwards. -/
theorem cancel_retains_context :
    (cancel (some "stale")).ctx ≠ none := by
  decide

/-- Claim C6 (amended): cancelling ends the conversation without clearing
the held composition text, but the stale text is never resurfaced: a later
confirmation is reachable only through `handle_message`, which overwrites
the held text with the freshly submitted one, so the only text the
confirmation handler can post to the channel is the new text. -/
theorem cancel_stale_text_never_resurfaced (channelId adminChatId : String)
    (ctx : Option String) (newText : String) (user_id : Nat)
    (un : Option String) (ts : String) (mid : Nat) :
    (cancel ctx).ctx = ctx ∧
    (cancel ctx).result = ConvResult.endConv ∧
    (handle_message (cancel ctx).ctx newText).ctx = some newText ∧
    (∀ s, Event.sendMessage channelId s ∈
        (handle_confirmation channelId adminChatId "confirm_post_yes"
          (handle_message (cancel ctx).ctx newText).ctx user_id un ts
          (Except.ok mid)).events →
      s = newText) ∧
    ((newText == "") = false →
      Event.sendMessage channelId newText ∈
        (handle_confirmation channelId adminChatId "confirm_post_yes"
          (handle_message (cancel ctx).ctx newText).ctx user_id un ts
          (Except.ok mid)).events) := by
  refine ⟨rfl, rfl, rfl, ?_, ?_⟩
  · intro s hs
    by_cases he : (newText == "") = true
    · simp [handle_confirmation, handle_message, cancel, falsy, he] at hs
    · simp [handle_confirmation, handle_message, cancel, falsy, he] at hs
      exact hs
  · intro he
    simp [handle_confirmation, handle_message, cancel, falsy, he]

/-- Claim C6 amended, witnessed at a concrete stale context. -/
theorem cancel_stale_text_never_resurfaced_witness :
    (∀ s, Event.sendMessage "@chan" s ∈
        (handle_confirmation "@chan" "777" "confirm_post_yes"
          (handle_message (cancel (some "stale")).ctx "fresh").ctx 9 none "t"
          (Except.ok 3)).events →
      s = "fresh") ∧
    Event.sendMessage "@chan" "fresh" ∈
      (handle_confirmation "@chan" "777" "confirm_post_yes"
        (handle_message (cancel (some "stale")).ctx "fresh").ctx 9 none "t"
        (Except.ok 3)).events := by
  have h := cancel_stale_text_never_resurfaced "@chan" "777" (some "stale")
    "fresh" 9 none "t" 3
  exact ⟨h.2.2.2.1, h.2.2.2.2 (by decide)⟩

/-- Claim C7 (refuted): the claim says `load` never raises to its caller
on malformed content.  But the source catches only
`(json.JSONDecodeError, IOError)`: a store file whose bytes are not
decodable text is malformed content on which `json.load` raises
`UnicodeDecodeError`, which escapes the handler and propagates to the
caller — here, loading `users.json` in that state yields an error, not a
mapping. -/
theorem load_json_data_raises_on_undecodable :
    load_json_data (fun _ => FileState.undecodable) "users.json" =
      Except.error () := by
  rfl

/-- Claim C7 (amended): `load_json_data` returns the empty mapping (not an
error) when the backing file is missing, and on content that fails JSON
parsing as text, or on an I/O error, logs and returns the empty mapping
rather than propagating; but on content whose bytes cannot be decoded as
text, the raised `UnicodeDecodeError` is not caught and propagates to the
caller. -/
theorem load_json_data_recovers_caught_errors (fs : String → FileState)
    (filepath : String) :
    (fs filepath = FileState.absent →
      load_json_data fs filepath = Except.ok ([], [])) ∧
    (fs filepath = FileState.malformed →
      load_json_data fs filepath =
        Except.ok ([Event.logError ("Could not read or parse " ++ filepath)], [])) ∧
    (fs filepath = FileState.undecodable →
      load_json_data fs filepath = Except.error ()) := by
  refine ⟨?_, ?_, ?_⟩ <;> intro h <;> simp [load_json_data, h]

/-- Claim C7 amended, witnessed on a missing file, a corrupted text file,
and an undecodable file. -/
theorem load_json_data_recovers_caught_errors_witness :
    load_json_data (fun _ => FileState.absent) "users.json" =
      Except.ok ([], []) ∧
    load_json_data (fun _ => FileState.malformed) "users.json" =
      Except.ok ([Event.logError ("Could not read or parse " ++ "users.json")], []) ∧
    load_json_data (fun _ => FileState.undecodable) "users.json" =
      Except.error () :=
  ⟨(load_json_data_recovers_caught_errors (fun _ => FileState.absent) "users.json").1 rfl,
   (load_json_data_recovers_caught_errors (fun _ => FileState.malformed) "users.json").2.1 rfl,
   (load_json_data_recovers_caught_errors (fun _ => FileState.undecodable) "users.json").2.2 rfl⟩

/-- Claim C10: when the confirm action arrives and the held composition
text is absent or empty, `handle_confirmation` publishes nothing, notifies
no admin, edits in an error message asking the user to /start again, and
ends the conversation. -/
theorem confirm_without_text_is_noop (channelId adminChatId : String)
    (ctx : Option String) (user_id : Nat) (un : Option String)
    (ts : String) (postResult : Except Unit Nat)
    (h : falsy ctx = true) :
    handle_confirmation channelId adminChatId "confirm_post_yes" ctx
        user_id un ts postResult =
      { events := [Event.answerQuery,
          Event.editMessageText "Sorry, an error occurred. Please /start again."]
        result := ConvResult.endConv } ∧
    ∀ e ∈ (handle_confirmation channelId adminChatId "confirm_post_yes" ctx
        user_id un ts postResult).events, isGatewaySend e = false := by
  have hmain : handle_confirmation channelId adminChatId "confirm_post_yes" ctx
      user_id un ts postResult =
      { events := [Event.answerQuery,
          Event.editMessageText "Sorry, an error occurred. Please /start again."]
        result := ConvResult.endConv } := by
    simp [handle_confirmation, h]
  refine ⟨hmain, ?_⟩
  rw [hmain]
  intro e he
  simp only [List.mem_cons, List.not_mem_nil, or_false] at he
  rcases he with rfl | rfl
  · rfl
  · rfl

/-- Claim C10, witnessed at an absent held text. -/
theorem confirm_without_text_is_noop_witness :
    handle_confirmation "@chan" "777" "confirm_post_yes" none 9 none "t"
        (Except.ok 3) =
      { events := [Event.answerQuery,
          Event.editMessageText "Sorry, an error occurred. Please /start again."]
        result := ConvResult.endConv } :=
  (confirm_without_text_is_noop "@chan" "777" none 9 none "t"
    (Except.ok 3) (by decide)).1

/-- Claim C3: with N registered users of which exactly K raise the
"blocked" (`Forbidden`) condition and the rest deliver, the broadcast
engine attempts exactly N sends — one per registered user, in registry
order, with no retry — and reports success = N−K and failure = K in the
tally sent to the invoking admin. -/
theorem broadcast_tally_counts (text : String) (users : Users)
    (outcome : String → SendOutcome) (K : Nat)
    (hall : ∀ u ∈ users.map Prod.fst,
      outcome u = SendOutcome.forbidden ∨ outcome u = SendOutcome.ok)
    (hK : ((users.map Prod.fst).filter
      (fun u => outcome u == SendOutcome.forbidden)).length = K) :
    ((broadcast_message text users outcome).events.filter isSendEvent =
      (users.map Prod.fst).map (fun u => Event.sendMessage u text)) ∧
    (broadcast_message text users outcome).success_count = users.length - K ∧
    (broadcast_message text users outcome).fail_count = K ∧
    Event.replyText ("Broadcast complete.\n\nSuccessfully sent: " ++
        toString (users.length - K) ++ "\nFailed or blocked: " ++ toString K) ∈
      (broadcast_message text users outcome).events := by
  have hfail : failCount outcome (users.map Prod.fst) = K := by
    rw [← hK]
    unfold failCount
    congr 1
    apply List.filter_congr
    intro u hu
    rcases hall u hu with h | h <;> simp [h]
  have hsum := okCount_add_failCount outcome (users.map Prod.fst)
  have hlen : (users.map Prod.fst).length = users.length := List.length_map _ _
  have hok : okCount outcome (users.map Prod.fst) = users.length - K := by omega
  refine ⟨?_, ?_, ?_, ?_⟩
  · rw [broadcast_message_eq]
    simp [List.filter_append, filter_isSend_stepEvents]
  · rw [broadcast_message_eq]; exact hok
  · rw [broadcast_message_eq]; exact hfail
  · rw [broadcast_message_eq]
    simp [hok, hfail]

/-- Claim C3, witnessed: three users of which one is blocked give two
successes, one failure, three attempted sends. -/
theorem broadcast_tally_counts_witness :
    (((broadcast_message "hi"
        [("1", ⟨none, none⟩), ("2", ⟨none, none⟩), ("3", ⟨none, none⟩)]
        (fun u => if u == "2" then SendOutcome.forbidden else SendOutcome.ok)).events.filter
          isSendEvent =
      ([("1", (⟨none, none⟩ : UserInfo)), ("2", ⟨none, none⟩), ("3", ⟨none, none⟩)].map
          Prod.fst).map
        (fun u => Event.sendMessage u "hi"))) ∧
    (broadcast_message "hi"
        [("1", ⟨none, none⟩), ("2", ⟨none, none⟩), ("3", ⟨none, none⟩)]
        (fun u => if u == "2" then SendOutcome.forbidden else SendOutcome.ok)).success_count =
      3 - 1 ∧
    (broadcast_message "hi"
        [("1", ⟨none, none⟩), ("2", ⟨none, none⟩), ("3", ⟨none, none⟩)]
        (fun u => if u == "2" then SendOutcome.forbidden else SendOutcome.ok)).fail_count =
      1 ∧
    Event.replyText ("Broadcast complete.\n\nSuccessfully sent: " ++
        toString (3 - 1) ++ "\nFailed or blocked: " ++ toString 1) ∈
      (broadcast_message "hi"
        [("1", ⟨none, none⟩), ("2", ⟨none, none⟩), ("3", ⟨none, none⟩)]
        (fun u => if u == "2" then SendOutcome.forbidden else SendOutcome.ok)).events := by
  have h := broadcast_tally_counts "hi"
    [("1", ⟨none, none⟩), ("2", ⟨none, none⟩), ("3", ⟨none, none⟩)]
    (fun u => if u == "2" then SendOutcome.forbidden else SendOutcome.ok) 1
    (by decide) (by decide)
  simpa using h

/-- Claim C8 (refuted): the pacing delay is claimed to be inserted between
every pair of consecutive sends regardless of the preceding send's outcome,
but `asyncio.sleep(0.1)` sits inside the `try` after the successful send:
when user "1" raises `Forbidden`, the send to user "2" follows with no
sleep between the two sends. -/
theorem broadcast_no_delay_after_failed_send :
    pacedBetweenSends
      (broadcast_message "hi" [("1", ⟨none, none⟩), ("2", ⟨none, none⟩)]
        (fun u => if u == "1" then SendOutcome.forbidden else SendOutcome.ok)).events =
      false := by
  decide

/-- Claim C8 (amended): in the send/sleep subtrace of a broadcast, each
send is followed by the pacing sleep exactly when that send succeeded
(including after the final send); a failed send is not followed by a
delay. -/
theorem broadcast_delay_follows_successful_sends (text : String)
    (users : Users) (outcome : String → SendOutcome) :
    pacingTrace (broadcast_message text users outcome).events =
      (users.map Prod.fst).flatMap (fun u =>
        Event.sendMessage u text ::
          (if outcome u == SendOutcome.ok then [Event.sleep] else [])) := by
  have h := pacingTrace_stepEvents text outcome (users.map Prod.fst)
  simp only [pacingTrace] at h ⊢
  rw [broadcast_message_eq]
  simp [List.filter_append, h]

/-- Claim C1: for a published message id present in the channel, the first
admin `delete` action removes it from the channel, and replaying the same
action finds the message already gone: the handler reports this with the
benign "may have been deleted already" notice, changes nothing, and does
not fail — the message is removed at most once. -/
theorem delete_action_idempotent (channelId : String) (channel : List Nat)
    (from_user_id mid : Nat) (data : String) (ds : List Char)
    (hsplit : splitFirstColon data.toList = ("delete".toList, some ds))
    (hparse : parseNat ds = some mid)
    (hnodup : channel.Nodup) (hmem : mid ∈ channel) :
    (handle_admin_action channelId channel from_user_id data).channel =
      channel.erase mid ∧
    mid ∉ (handle_admin_action channelId channel from_user_id data).channel ∧
    Event.deleteMessage channelId mid ∈
      (handle_admin_action channelId channel from_user_id data).events ∧
    (handle_admin_action channelId
        (handle_admin_action channelId channel from_user_id data).channel
        from_user_id data).channel =
      (handle_admin_action channelId channel from_user_id data).channel ∧
    Event.editMessageText "Could not delete message. It may have been deleted already." ∈
      (handle_admin_action channelId
        (handle_admin_action channelId channel from_user_id data).channel
        from_user_id data).events := by
  have hda : (String.mk "delete".toList == "delete") = true := by decide
  have hds : (String.mk ds).toList = ds := rfl
  have hrun : ∀ ch : List Nat, handle_admin_action channelId ch from_user_id data =
      (if ch.contains mid then
        { channel := ch.erase mid
          events := [Event.answerQuery, Event.deleteMessage channelId mid,
            Event.editMessageText "🗑️ Message has been deleted from the channel.",
            Event.logInfo ("Admin " ++ toString from_user_id ++ " deleted message " ++
              String.mk ds ++ " from channel " ++ channelId ++ ".")] }
      else
        { channel := ch
          events := [Event.answerQuery, Event.deleteMessage channelId mid,
            Event.editMessageText "Could not delete message. It may have been deleted already.",
            Event.logWarning ("Admin " ++ toString from_user_id ++ " failed to delete message " ++
              String.mk ds ++ " (already deleted?).")] }) := by
    intro ch
    unfold handle_admin_action
    simp only [hsplit, hda, hds, hparse, Option.getD_some, if_true]
    simp
  have hc1 : channel.contains mid = true := List.elem_iff.mpr hmem
  have h1 := hrun channel
  rw [if_pos hc1] at h1
  have hnot : mid ∉ channel.erase mid := hnodup.not_mem_erase
  have hc2 : (channel.erase mid).contains mid = false := by
    rw [Bool.eq_false_iff]
    intro h
    exact hnot (List.elem_iff.mp h)
  have hcne : ¬((channel.erase mid).contains mid = true) := fun h =>
    hnot (List.elem_iff.mp h)
  have h2 := hrun (channel.erase mid)
  rw [if_neg hcne] at h2
  have ho1c : (handle_admin_action channelId channel from_user_id data).channel =
      channel.erase mid := by rw [h1]
  refine ⟨ho1c, by rw [ho1c]; exact hnot, ?_, ?_, ?_⟩
  · rw [h1]; simp
  · rw [ho1c, h2]
  · rw [ho1c, h2]; simp

/-- Claim C1, witnessed at channel `[57, 9]` and callback data
`"delete:57"`. -/
theorem delete_action_idempotent_witness :
    (handle_admin_action "@chan" [57, 9] 1 "delete:57").channel =
      [57, 9].erase 57 ∧
    57 ∉ (handle_admin_action "@chan" [57, 9] 1 "delete:57").channel ∧
    Event.deleteMessage "@chan" 57 ∈
      (handle_admin_action "@chan" [57, 9] 1 "delete:57").events ∧
    (handle_admin_action "@chan"
        (handle_admin_action "@chan" [57, 9] 1 "delete:57").channel
        1 "delete:57").channel =
      (handle_admin_action "@chan" [57, 9] 1 "delete:57").channel ∧
    Event.editMessageText "Could not delete message. It may have been deleted already." ∈
      (handle_admin_action "@chan"
        (handle_admin_action "@chan" [57, 9] 1 "delete:57").channel
        1 "delete:57").events :=
  delete_action_idempotent "@chan" [57, 9] 1 57 "delete:57" "57".toList
    (by decide) (by decide) (by decide) (by decide)

/-- Claim C4: the /start handler advances to Submitting exactly when the
membership lookup returns a confirmed member status; every other outcome —
a raised gateway error or any non-member status — ends the conversation
with the join-prompt reply. -/
theorem start_membership_gate (channelId : String) (users : Users)
    (user_id : Nat) (un fn : Option String) (lookup : ChatMemberResult) :
    ((start channelId users user_id un fn lookup).result = ConvResult.submitting ↔
      ∃ s, lookup = ChatMemberResult.ok s ∧ s ∈ memberStatuses) ∧
    ((start channelId users user_id un fn lookup).result = ConvResult.submitting ∨
      ((start channelId users user_id un fn lookup).result = ConvResult.endConv ∧
        Event.replyText (joinPromptText channelId) ∈
          (start channelId users user_id un fn lookup).events)) := by
  cases lookup with
  | ok s =>
      by_cases hc : s ∈ memberStatuses
      · constructor
        · simp [start, hc]
        · left; simp [start, hc]
      · constructor
        · simp [start, hc]
        · right; constructor
          · simp [start, hc]
          · simp [start, hc]
  | err =>
      constructor
      · simp [start]
      · right; constructor
        · simp [start]
        · simp [start]

/-- Claim C5: a /start from a user whose id holds at most one registry
entry (as any Python dict guarantees) leaves exactly one entry under that
id, and a second /start — with any membership outcome and any fresh profile
data — changes the registry not at all: the insertion is an idempotent
upsert keyed by the user id, never a duplicate. -/
theorem start_idempotent_upsert (c1 c2 : String) (users : Users)
    (user_id : Nat) (a1 b1 a2 b2 : Option String)
    (l1 l2 : ChatMemberResult)
    (h : countKey users (toString user_id) ≤ 1) :
    countKey (start c1 users user_id a1 b1 l1).users (toString user_id) = 1 ∧
    (start c2 (start c1 users user_id a1 b1 l1).users user_id a2 b2 l2).users =
      (start c1 users user_id a1 b1 l1).users := by
  by_cases hk : hasKey users (toString user_id) = true
  · have hpos := (hasKey_iff_countKey_pos users (toString user_id)).mp hk
    have h1 : countKey users (toString user_id) = 1 := by omega
    have hu : (start c1 users user_id a1 b1 l1).users = users := by
      rw [start_users_eq]; simp [hk]
    refine ⟨by rw [hu]; exact h1, ?_⟩
    rw [hu, start_users_eq]
    simp [hk]
  · have h0 : countKey users (toString user_id) = 0 := by
      have hnpos : ¬0 < countKey users (toString user_id) := fun hp =>
        hk ((hasKey_iff_countKey_pos users (toString user_id)).mpr hp)
      omega
    have hu : (start c1 users user_id a1 b1 l1).users =
        users ++ [(toString user_id, ⟨a1, b1⟩)] := by
      rw [start_users_eq]; simp [hk]
    have hcnt : countKey (users ++ [(toString user_id, ⟨a1, b1⟩)])
        (toString user_id) = 1 := by
      rw [countKey_append, h0]
      simp [countKey]
    have hk2 : hasKey (users ++ [(toString user_id, ⟨a1, b1⟩)])
        (toString user_id) = true :=
      (hasKey_iff_countKey_pos _ _).mpr (by rw [hcnt]; omega)
    refine ⟨by rw [hu]; exact hcnt, ?_⟩
    rw [hu, start_users_eq]
    simp [hk2]

/-- Claim C5, witnessed: user 7 starting twice on an empty registry. -/
theorem start_idempotent_upsert_witness :
    countKey (start "@chan" [] 7 (some "u") (some "f") ChatMemberResult.err).users
      (toString 7) = 1 ∧
    (start "@chan" (start "@chan" [] 7 (some "u") (some "f") ChatMemberResult.err).users
        7 none none (ChatMemberResult.ok "member")).users =
      (start "@chan" [] 7 (some "u") (some "f") ChatMemberResult.err).users :=
  start_idempotent_upsert "@chan" "@chan" [] 7 (some "u") (some "f") none none
    ChatMemberResult.err (ChatMemberResult.ok "member") (by decide)

/-- Claim C9: a user unknown to the registry who invokes /start is saved to
the durable registry before the membership lookup is made (the save event
precedes the `get_chat_member` event in the handler's trace), whatever the
lookup then returns — so even a user who fails the gate is registered and
receives a send in any subsequent broadcast over that registry. -/
theorem start_registers_user_before_gate (channelId : String) (users : Users)
    (user_id : Nat) (un fn : Option String) (lookup : ChatMemberResult)
    (text : String) (outcome : String → SendOutcome)
    (hnew : hasKey users (toString user_id) = false) :
    hasKey (start channelId users user_id un fn lookup).users
      (toString user_id) = true ∧
    (∃ pre post, (start channelId users user_id un fn lookup).events =
        pre ++ Event.getChatMember :: post ∧
      Event.saveUsers (start channelId users user_id un fn lookup).users ∈ pre) ∧
    Event.sendMessage (toString user_id) text ∈
      (broadcast_message text (start channelId users user_id un fn lookup).users
        outcome).events := by
  have hu : (start channelId users user_id un fn lookup).users =
      users ++ [(toString user_id, ⟨un, fn⟩)] := by
    rw [start_users_eq]; simp [hnew]
  refine ⟨?_, ?_, ?_⟩
  · rw [hu]; simp [hasKey]
  · refine ⟨[Event.saveUsers (users ++ [(toString user_id, ⟨un, fn⟩)]),
      Event.logInfo ("New user saved: " ++ toString user_id),
      Event.replyText "Welcome! Let me check if you're a member of our channel first..."],
      (start channelId users user_id un fn lookup).events.drop 4, ?_, ?_⟩
    · cases lookup with
      | ok s =>
          by_cases hc : s ∈ memberStatuses <;> simp [start, hnew, hc]
      | err => simp [start, hnew]
    · rw [hu]; simp
  · have hkmem : toString user_id ∈
        ((start channelId users user_id un fn lookup).users.map Prod.fst) := by
      rw [hu]; simp
    rw [broadcast_message_eq]
    refine List.mem_cons.mpr (Or.inr (List.mem_append.mpr (Or.inl ?_)))
    exact List.mem_flatMap.mpr ⟨toString user_id, hkmem,
      by cases ho : outcome (toString user_id) <;> simp [stepEvents, ho]⟩

/-- Claim C9, witnessed: unknown user 7 whose membership lookup raises is
still saved and still receives the next broadcast. -/
theorem start_registers_user_before_gate_witness :
    hasKey (start "@chan" [] 7 none none ChatMemberResult.err).users
      (toString 7) = true ∧
    (∃ pre post, (start "@chan" [] 7 none none ChatMemberResult.err).events =
        pre ++ Event.getChatMember :: post ∧
      Event.saveUsers (start "@chan" [] 7 none none ChatMemberResult.err).users ∈ pre) ∧
    Event.sendMessage (toString 7) "hi" ∈
      (broadcast_message "hi" (start "@chan" [] 7 none none ChatMemberResult.err).users
        (fun _ => SendOutcome.forbidden)).events :=
  start_registers_user_before_gate "@chan" [] 7 none none ChatMemberResult.err
    "hi" (fun _ => SendOutcome.forbidden) (by decide)

end Bot
